import Mathlib

/-!
Shallow embedding of the multiplayer car game's core code:
the client kinematic integrator and collision detector/resolver
(src/client/physics.ts) and the server's room state, validation and
pairwise collision pass (server.ts with handlePlayerCollisions).
JavaScript floating-point numbers are idealised as real numbers.
-/

/-- A 3D vector, mirroring the Vector3D record and THREE.Vector3. -/
@[ext] structure Vec3 where
  x : ℝ
  y : ℝ
  z : ℝ

namespace Vec3

/-- Componentwise addition (THREE.Vector3.add). -/
def add (a b : Vec3) : Vec3 := ⟨a.x + b.x, a.y + b.y, a.z + b.z⟩

/-- Componentwise subtraction (THREE.Vector3.sub). -/
def sub (a b : Vec3) : Vec3 := ⟨a.x - b.x, a.y - b.y, a.z - b.z⟩

/-- Scalar multiplication (THREE.Vector3.multiplyScalar). -/
def smul (k : ℝ) (a : Vec3) : Vec3 := ⟨k * a.x, k * a.y, k * a.z⟩

/-- Dot product (THREE.Vector3.dot). -/
def dot (a b : Vec3) : ℝ := a.x * b.x + a.y * b.y + a.z * b.z

/-- Euclidean norm (THREE.Vector3.length). -/
noncomputable def length (a : Vec3) : ℝ := Real.sqrt (a.x ^ 2 + a.y ^ 2 + a.z ^ 2)

/-- THREE.Vector3.normalize: divides by the length, with the zero-length
guard divideScalar(length or 1), so the zero vector stays zero. -/
noncomputable def normalize3 (a : Vec3) : Vec3 :=
  if length a = 0 then a else smul (1 / length a) a

end Vec3

/-- The key-state snapshot consulted by CarPhysicsEngine.updatePhysics. -/
structure Keys where
  keyW : Bool
  arrowUp : Bool
  keyS : Bool
  arrowDown : Bool
  keyA : Bool
  arrowLeft : Bool
  keyD : Bool
  arrowRight : Bool
  space : Bool

/-- A snapshot with no keys active. -/
def noKeys : Keys := ⟨false, false, false, false, false, false, false, false, false⟩

/-- Mutable state of CarPhysicsEngine (the fields of this.physics that change). -/
structure CarPhysicsState where
  velocity : Vec3
  turnSpeed : ℝ

/-- The THREE.Group state that updatePhysics mutates: position and yaw
(rotation.y; the quaternion is kept in sync with the yaw by three.js). -/
structure CarState where
  position : Vec3
  rotY : ℝ

namespace CarPhysicsEngine

/-- Constant this.physics.power. -/
def power : ℝ := 1.2

/-- Constant this.physics.reverse. -/
def reversePower : ℝ := 0.4

/-- Constant this.physics.friction. -/
def friction : ℝ := 0.95

/-- Constant this.physics.maxSpeed. -/
def maxSpeed : ℝ := 80

/-- Constant this.physics.maxTurnSpeed. -/
def maxTurnSpeed : ℝ := 2

/-- Constant this.physics.turnDecay. -/
def turnDecay : ℝ := 0.9

/-- Input acceleration selection at the top of updatePhysics: forward keys set
power, reverse keys overwrite with -reverse, and if the result is zero a turn
key alone yields power * 0.3. -/
noncomputable def chooseAcceleration (keys : Keys) : ℝ :=
  let a1 : ℝ := if keys.keyW || keys.arrowUp then power else 0
  let a2 : ℝ := if keys.keyS || keys.arrowDown then -reversePower else a1
  if a2 = 0 ∧ (keys.keyA || keys.arrowLeft || keys.keyD || keys.arrowRight) = true then
    power * 0.3
  else a2

/-- Turn-speed update of updatePhysics, read from the velocity as it was
before the handbrake is applied. -/
noncomputable def updateTurnSpeed (turnSpeed : ℝ) (keys : Keys) (vel : Vec3) : ℝ :=
  if |Vec3.length vel| > 0.1 then
    if keys.keyA || keys.arrowLeft then min (turnSpeed + 0.1) maxTurnSpeed
    else if keys.keyD || keys.arrowRight then max (turnSpeed - 0.1) (-maxTurnSpeed)
    else turnSpeed * turnDecay
  else 0

/-- The forward heading: (0,0,-1) rotated by the yaw quaternion. -/
noncomputable def forwardVec (rotY : ℝ) : Vec3 :=
  ⟨-Real.sin rotY, 0, -Real.cos rotY⟩

/-- The velocity after the handbrake scaling, the acceleration along the
heading (scaled by deltaTime * 60) and the friction factor, in source order. -/
noncomputable def velAfterFriction (vel0 : Vec3) (keys : Keys) (rotY : ℝ) (dt : ℝ) : Vec3 :=
  let vel1 := if keys.space then Vec3.smul 0.95 vel0 else vel0
  let accVec := Vec3.smul (chooseAcceleration keys * dt * 60) (forwardVec rotY)
  Vec3.smul friction (Vec3.add vel1 accVec)

/-- Speed limiting: if the length exceeds maxSpeed, normalize and rescale. -/
noncomputable def clampVel (v : Vec3) : Vec3 :=
  if Vec3.length v > maxSpeed then Vec3.smul maxSpeed (Vec3.normalize3 v) else v

/-- CarPhysicsEngine.updatePhysics from src/client/physics.ts: one integrator
step, returning the new physics state and the new car transform. -/
noncomputable def updatePhysics (phys : CarPhysicsState) (car : CarState)
    (keys : Keys) (dt : ℝ) : CarPhysicsState × CarState :=
  let ts := updateTurnSpeed phys.turnSpeed keys phys.velocity
  let vClamped := clampVel (velAfterFriction phys.velocity keys car.rotY dt)
  let vFinal : Vec3 := ⟨vClamped.x, 0, vClamped.z⟩
  let newPos0 := Vec3.add car.position (Vec3.smul dt vFinal)
  let newPos : Vec3 := ⟨newPos0.x, 0, newPos0.z⟩
  let speed := Vec3.length vFinal
  let fwd := Vec3.normalize3 (forwardVec car.rotY)
  let vnorm := Vec3.normalize3 vFinal
  let movingBackward := Vec3.dot fwd vnorm < 0
  let newRotY :=
    if speed > 0.1 then
      if movingBackward then car.rotY - ts * dt else car.rotY + ts * dt
    else car.rotY
  (⟨vFinal, ts⟩, ⟨newPos, newRotY⟩)

end CarPhysicsEngine

/-- A vehicle as the collision code sees it: world position, yaw, and the
bounding-box size computed once by computeCarBoundingBox. -/
structure Car where
  position : Vec3
  rotY : ℝ
  size : Vec3

/-- Rotation about the vertical axis by the yaw angle, the effect of
applyQuaternion with a yaw-only quaternion. -/
noncomputable def rotateY (t : ℝ) (v : Vec3) : Vec3 :=
  ⟨v.x * Real.cos t + v.z * Real.sin t, v.y, -v.x * Real.sin t + v.z * Real.cos t⟩

/-- The four world-space corners of getWorldSpaceCorners, in source order. -/
abbrev Corners := Vec3 × Vec3 × Vec3 × Vec3

/-- getWorldSpaceCorners: local corners at (+-halfX, 0, +-halfZ), rotated by
the yaw and translated to the car position. -/
noncomputable def getWorldSpaceCorners (car : Car) : Corners :=
  let hx := car.size.x * 0.5
  let hz := car.size.z * 0.5
  (Vec3.add (rotateY car.rotY ⟨-hx, 0, -hz⟩) car.position,
   Vec3.add (rotateY car.rotY ⟨hx, 0, -hz⟩) car.position,
   Vec3.add (rotateY car.rotY ⟨hx, 0, hz⟩) car.position,
   Vec3.add (rotateY car.rotY ⟨-hx, 0, hz⟩) car.position)

/-- Minimum and maximum of the four corner projections onto an axis. -/
noncomputable def projInterval (cs : Corners) (axis : Vec3) : ℝ × ℝ :=
  let p1 := Vec3.dot cs.1 axis
  let p2 := Vec3.dot cs.2.1 axis
  let p3 := Vec3.dot cs.2.2.1 axis
  let p4 := Vec3.dot cs.2.2.2 axis
  (min (min (min p1 p2) p3) p4, max (max (max p1 p2) p3) p4)

/-- isOverlapping: the projected intervals of the two corner sets intersect. -/
noncomputable def isOverlapping (csA csB : Corners) (axis : Vec3) : Bool :=
  let iA := projInterval csA axis
  let iB := projInterval csB axis
  !(decide (iA.2 < iB.1) || decide (iB.2 < iA.1))

/-- The four candidate separating axes of checkRotatedAABBCollision. -/
noncomputable def axesToTest (carA carB : Car) : List Vec3 :=
  [⟨Real.cos carA.rotY, 0, Real.sin carA.rotY⟩,
   ⟨-Real.sin carA.rotY, 0, Real.cos carA.rotY⟩,
   ⟨Real.cos carB.rotY, 0, Real.sin carB.rotY⟩,
   ⟨-Real.sin carB.rotY, 0, Real.cos carB.rotY⟩]

/-- checkRotatedAABBCollision: collision iff every candidate axis overlaps. -/
noncomputable def checkRotatedAABBCollision (carA carB : Car) : Bool :=
  let csA := getWorldSpaceCorners carA
  let csB := getWorldSpaceCorners carB
  (axesToTest carA carB).all (fun axis => isOverlapping csA csB axis)

/-- checkOBBCollision: bounding-sphere fast reject using
max(size.x, size.z) * 0.5 per car, then the separating-axis test. -/
noncomputable def checkOBBCollision (carA carB : Car) : Bool :=
  let distance := Vec3.length (Vec3.sub carA.position carB.position)
  let maxRadiusA := max carA.size.x carA.size.z * 0.5
  let maxRadiusB := max carB.size.x carB.size.z * 0.5
  if distance > maxRadiusA + maxRadiusB then false
  else checkRotatedAABBCollision carA carB

/-- The collision normal of resolveCarCollision: the Y-flattened difference of
positions, normalized, with the (1,0,0) fallback for coincident centers, then
flattened and normalized again exactly as in the source. -/
noncomputable def resolveNormal (posA posB : Vec3) : Vec3 :=
  let pA : Vec3 := ⟨posA.x, 0, posA.z⟩
  let pB : Vec3 := ⟨posB.x, 0, posB.z⟩
  let n0 := Vec3.normalize3 (Vec3.sub pA pB)
  let n1 := if Vec3.length n0 = 0 then (⟨1, 0, 0⟩ : Vec3) else n0
  let n2 : Vec3 := ⟨n1.x, 0, n1.z⟩
  Vec3.normalize3 n2

/-- The four mutated outputs of resolveCarCollision. -/
structure ResolveResult where
  carA : Car
  carB : Car
  velA : Vec3
  velB : Vec3

/-- resolveCarCollision from src/client/physics.ts (the 2D impulse variant):
impulse on the X/Z velocity components, positional separation from the summed
half-extents, and the cosmetic yaw kick. -/
noncomputable def resolveCarCollision (carA carB : Car) (velA velB : Vec3) : ResolveResult :=
  let n := resolveNormal carA.position carB.position
  let v2A : Vec3 := ⟨velA.x, 0, velA.z⟩
  let v2B : Vec3 := ⟨velB.x, 0, velB.z⟩
  let relativeVelocity := Vec3.sub v2A v2B
  let velocityAlongNormal := Vec3.dot relativeVelocity n
  if velocityAlongNormal > 0 then ⟨carA, carB, velA, velB⟩
  else
    let restitution : ℝ := 0.3
    let impulseScalar := -(1 + restitution) * velocityAlongNormal
    let impulse := Vec3.smul impulseScalar n
    let velA1 : Vec3 := ⟨velA.x + impulse.x, velA.y, velA.z + impulse.z⟩
    let velB1 : Vec3 := ⟨velB.x - impulse.x, velB.y, velB.z - impulse.z⟩
    let separationDistance :=
      (max carA.size.x carA.size.z + max carB.size.x carB.size.z) * 0.25
    let currentDistance2D :=
      Real.sqrt ((carA.position.x - carB.position.x) ^ 2 +
        (carA.position.z - carB.position.z) ^ 2)
    let overlap := max 0 (separationDistance - currentDistance2D)
    let posA1 : Vec3 :=
      if overlap > 0 then
        ⟨carA.position.x + (overlap * 0.5) * n.x, carA.position.y,
         carA.position.z + (overlap * 0.5) * n.z⟩
      else carA.position
    let posB1 : Vec3 :=
      if overlap > 0 then
        ⟨carB.position.x - (overlap * 0.5) * n.x, carB.position.y,
         carB.position.z - (overlap * 0.5) * n.z⟩
      else carB.position
    let impactStrength := min |velocityAlongNormal| 10
    let collisionAngle := Complex.arg ⟨n.x, n.z⟩
    let rotA1 := carA.rotY + Real.sin collisionAngle * (impactStrength * 0.02)
    let rotB1 := carB.rotY - Real.sin collisionAngle * (impactStrength * 0.02)
    ⟨⟨posA1, rotA1, carA.size⟩, ⟨posB1, rotB1, carB.size⟩, velA1, velB1⟩

/-- Server-side player record (PlayerData in server.ts). -/
structure PlayerData where
  id : String
  name : String
  roomId : String
  position : Vec3
  rotation : Vec3
  velocity : Vec3
  joinedAt : ℤ
  lastUpdate : ℤ

/-- The body of the inner loop of handlePlayerCollisions (server variant with
the fixed 12 x 24 car footprint): circle overlap test on the squared XZ
distance, the impulse on X/Z, and the positional separation with 10% buffer. -/
noncomputable def serverResolvePair (pA pB : PlayerData) : PlayerData × PlayerData :=
  let dx := pA.position.x - pB.position.x
  let dz := pA.position.z - pB.position.z
  let distSq := dx * dx + dz * dz
  let carLength : ℝ := 24
  let carWidth : ℝ := 12
  let collisionRadius := Real.sqrt (carLength * carLength + carWidth * carWidth) * 0.5
  let collisionRadiusSq := collisionRadius * collisionRadius
  if distSq < collisionRadiusSq then
    let dist := if Real.sqrt distSq = 0 then 1.0 else Real.sqrt distSq
    let nx := dx / dist
    let nz := dz / dist
    let relativeVelX := pA.velocity.x - pB.velocity.x
    let relativeVelZ := pA.velocity.z - pB.velocity.z
    let velocityAlongNormal := relativeVelX * nx + relativeVelZ * nz
    if velocityAlongNormal > 0 then (pA, pB)
    else
      let restitution : ℝ := 0.3
      let impulseScalar := -(1 + restitution) * velocityAlongNormal
      let impulseX := nx * impulseScalar
      let impulseZ := nz * impulseScalar
      let pA1 := { pA with velocity :=
        ⟨pA.velocity.x + impulseX, pA.velocity.y, pA.velocity.z + impulseZ⟩ }
      let pB1 := { pB with velocity :=
        ⟨pB.velocity.x - impulseX, pB.velocity.y, pB.velocity.z - impulseZ⟩ }
      let minSeparationDistance := collisionRadius * 1.1
      let separationNeeded := minSeparationDistance - dist
      if separationNeeded > 0 then
        let separation := separationNeeded * 0.5
        ({ pA1 with position := ⟨pA1.position.x + nx * separation, pA1.position.y,
            pA1.position.z + nz * separation⟩ },
         { pB1 with position := ⟨pB1.position.x - nx * separation, pB1.position.y,
            pB1.position.z - nz * separation⟩ })
      else (pA1, pB1)
  else (pA, pB)

/-- Inner loop of handlePlayerCollisions: the head player is resolved against
every later player in order, threading the updated records. -/
noncomputable def resolveWithRest (p : PlayerData) (rest : List PlayerData) :
    PlayerData × List PlayerData :=
  match rest with
  | [] => (p, [])
  | q :: qs =>
    let r1 := serverResolvePair p q
    let r2 := resolveWithRest r1.1 qs
    (r2.1, r1.2 :: r2.2)

/-- Outer loop of handlePlayerCollisions, with the fuel argument equal to the
list length (the loop bound of the source's index i). -/
noncomputable def handleAux : Nat → List PlayerData → List PlayerData
  | 0, ps => ps
  | _ + 1, [] => []
  | n + 1, p :: rest =>
    let pr := resolveWithRest p rest
    pr.1 :: handleAux n pr.2

/-- handlePlayerCollisions from the server: pairwise pass over all (i, j)
pairs with i < j, mutating the room members in place. -/
noncomputable def handlePlayerCollisions (ps : List PlayerData) : List PlayerData :=
  handleAux ps.length ps

/-- The payload of an updatePosition message; a missing field models the
falsy-field check of the handler. -/
structure PositionUpdateData where
  position : Option Vec3
  rotation : Option Vec3
  velocity : Option Vec3

/-- The updatePosition handler restricted to the reporting player's room:
drop the update when the player is unknown or a field is missing, otherwise
store the reported state verbatim and run the room collision pass. -/
noncomputable def updatePositionHandler (room : List PlayerData) (sid : String)
    (data : PositionUpdateData) (now : ℤ) : List PlayerData :=
  if room.any (fun p => p.id == sid) then
    match data.position, data.rotation, data.velocity with
    | some pos, some rot, some vel =>
      handlePlayerCollisions (room.map (fun p =>
        if p.id == sid then
          { p with position := pos, rotation := rot, velocity := vel, lastUpdate := now }
        else p))
    | _, _, _ => room
  else room

/-- The Detector+Resolver pair the spec claims the server pass is equivalent
to (claim C1): checkOBBCollision followed by resolveCarCollision on one pair,
using the 12 x 24 footprint the server's pass assumes for every car. -/
noncomputable def detectorResolverPair (pA pB : PlayerData) : PlayerData × PlayerData :=
  let size : Vec3 := ⟨12, 0, 24⟩
  let carA : Car := ⟨pA.position, pA.rotation.y, size⟩
  let carB : Car := ⟨pB.position, pB.rotation.y, size⟩
  if checkOBBCollision carA carB then
    let r := resolveCarCollision carA carB pA.velocity pB.velocity
    ({ pA with
        position := r.carA.position,
        rotation := ⟨pA.rotation.x, r.carA.rotY, pA.rotation.z⟩,
        velocity := r.velA },
     { pB with
        position := r.carB.position,
        rotation := ⟨pB.rotation.x, r.carB.rotY, pB.rotation.z⟩,
        velocity := r.velB })
  else (pA, pB)

/-- Server-side room record (RoomData in server.ts), with members kept by id. -/
structure RoomData where
  id : String
  members : List String
  createdAt : ℤ
deriving DecidableEq

/-- The process-wide game state: the global player map and the room map. -/
structure GameState where
  players : List (String × PlayerData)
  rooms : List RoomData

/-- The disconnect handler: remove the player from their room, delete the
room at once when it became empty, and remove the player from the global map. -/
def disconnectHandler (gs : GameState) (sid : String) : GameState :=
  match gs.players.find? (fun pr => pr.1 == sid) with
  | none => gs
  | some pr =>
    let player := pr.2
    let rooms1 :=
      match gs.rooms.find? (fun r => r.id == player.roomId) with
      | none => gs.rooms
      | some room =>
        let room1 : RoomData := { room with members := room.members.filter (fun m => m != sid) }
        if room1.members.isEmpty then gs.rooms.filter (fun r => r.id != player.roomId)
        else gs.rooms.map (fun r => if r.id == player.roomId then room1 else r)
    { players := gs.players.filter (fun pr2 => pr2.1 != sid), rooms := rooms1 }

/-- The 30-minute idle age of the periodic cleanup sweep, in milliseconds. -/
def maxAge : ℤ := 30 * 60 * 1000

/-- The periodic cleanup sweep: delete rooms that are empty and older than
maxAge. -/
def cleanupRooms (rooms : List RoomData) (now : ℤ) : List RoomData :=
  rooms.filter (fun r => !(r.members.isEmpty && decide (now - r.createdAt > maxAge)))

/-- JavaScript String.prototype.trim: drop whitespace from both ends,
modelled on the character list. -/
def trimChars (cs : List Char) : List Char :=
  ((cs.dropWhile Char.isWhitespace).reverse.dropWhile Char.isWhitespace).reverse

/-- validatePlayerName: the empty string is falsy and throws; otherwise trim,
truncate to 20 characters, and substitute the Player_ timestamp placeholder
when the result is empty. -/
def validatePlayerName (name : String) (now : ℤ) : Except String String :=
  if name = "" then Except.error "Invalid player name"
  else
    let trimmed := String.mk ((trimChars name.data).take 20)
    if trimmed = "" then Except.ok ("Player_" ++ toString now)
    else Except.ok trimmed

/-- A concrete joined player: at the origin, axis-aligned, moving along +x. -/
def cexA : PlayerData := ⟨"a", "Alice", "r", ⟨0, 0, 0⟩, ⟨0, 0, 0⟩, ⟨1, 0, 0⟩, 0, 0⟩

/-- A concrete joined player 13 units away on the x axis, moving along -x
towards the first: inside the server's fixed collision radius (13.4), but the
OBB footprints (12 wide) are separated on the x axis. -/
def cexB : PlayerData := ⟨"b", "Bob", "r", ⟨13, 0, 0⟩, ⟨0, 0, 0⟩, ⟨-1, 0, 0⟩, 0, 0⟩

/-! Basic facts about the vector operations. -/

lemma Vec3.length_nonneg (a : Vec3) : 0 ≤ a.length :=
  Real.sqrt_nonneg _

lemma Vec3.length_smul (k : ℝ) (a : Vec3) : (Vec3.smul k a).length = |k| * a.length := by
  unfold Vec3.length Vec3.smul
  rw [show (k * a.x) ^ 2 + (k * a.y) ^ 2 + (k * a.z) ^ 2
      = k ^ 2 * (a.x ^ 2 + a.y ^ 2 + a.z ^ 2) by ring]
  rw [Real.sqrt_mul (sq_nonneg k), Real.sqrt_sq_eq_abs]

lemma Vec3.length_mk_x (a : ℝ) : Vec3.length ⟨a, 0, 0⟩ = |a| := by
  unfold Vec3.length
  rw [show (a : ℝ) ^ 2 + (0 : ℝ) ^ 2 + (0 : ℝ) ^ 2 = a ^ 2 by ring, Real.sqrt_sq_eq_abs]

lemma Vec3.length_flatten_le (a : Vec3) : Vec3.length ⟨a.x, 0, a.z⟩ ≤ a.length := by
  unfold Vec3.length
  dsimp only
  apply Real.sqrt_le_sqrt
  nlinarith [sq_nonneg a.y]

lemma Vec3.length_normalize3 (a : Vec3) (h : a.length ≠ 0) :
    (Vec3.normalize3 a).length = 1 := by
  unfold Vec3.normalize3
  rw [if_neg h, Vec3.length_smul]
  have hpos : 0 < a.length := lt_of_le_of_ne (Vec3.length_nonneg a) (Ne.symm h)
  rw [abs_of_pos (by positivity)]
  field_simp

namespace CarPhysicsEngine

lemma chooseAcceleration_noKeys : chooseAcceleration noKeys = 0 := by
  simp [chooseAcceleration, noKeys]

lemma velAfterFriction_noKeys (v : Vec3) (rotY dt : ℝ) :
    velAfterFriction v noKeys rotY dt = Vec3.smul friction v := by
  unfold velAfterFriction
  rw [chooseAcceleration_noKeys]
  show Vec3.smul friction (Vec3.add v (Vec3.smul (0 * dt * 60) (forwardVec rotY)))
      = Vec3.smul friction v
  ext <;> simp [Vec3.smul, Vec3.add]

lemma velAfterFriction_y (v : Vec3) (keys : Keys) (rotY dt : ℝ) (hv : v.y = 0) :
    (velAfterFriction v keys rotY dt).y = 0 := by
  unfold velAfterFriction forwardVec
  rcases h : keys.space <;> simp [h, Vec3.smul, Vec3.add, hv]

lemma length_clampVel_le (v : Vec3) : (clampVel v).length ≤ v.length := by
  unfold clampVel
  split
  · next h =>
    have hne : v.length ≠ 0 := by
      have : (0 : ℝ) < maxSpeed := by norm_num [maxSpeed]
      exact ne_of_gt (lt_trans this h)
    rw [Vec3.length_smul, Vec3.length_normalize3 v hne, mul_one,
      abs_of_pos (by norm_num [maxSpeed] : (0 : ℝ) < maxSpeed)]
    exact le_of_lt h
  · exact le_refl _

/-- The updated velocity of one integrator step, as stored back into
this.physics.velocity (the clamped vector with the vertical component zeroed). -/
lemma updatePhysics_velocity (phys : CarPhysicsState) (car : CarState)
    (keys : Keys) (dt : ℝ) :
    (updatePhysics phys car keys dt).1.velocity =
      ⟨(clampVel (velAfterFriction phys.velocity keys car.rotY dt)).x, 0,
       (clampVel (velAfterFriction phys.velocity keys car.rotY dt)).z⟩ := by
  simp [updatePhysics]

end CarPhysicsEngine

/-- Claim C7: with no keys active and a positive time delta, one updatePhysics
step strictly decreases the velocity magnitude whenever it is positive
(friction-only multiplicative decay), and the stored vertical velocity
component is exactly 0 after the step. -/
theorem updatePhysics_friction_decay (phys : CarPhysicsState) (car : CarState) (dt : ℝ)
    (hdt : 0 < dt) (hv : 0 < phys.velocity.length) :
    (CarPhysicsEngine.updatePhysics phys car noKeys dt).1.velocity.length <
      phys.velocity.length ∧
    (CarPhysicsEngine.updatePhysics phys car noKeys dt).1.velocity.y = 0 := by
  constructor
  · rw [CarPhysicsEngine.updatePhysics_velocity, CarPhysicsEngine.velAfterFriction_noKeys]
    calc Vec3.length ⟨(CarPhysicsEngine.clampVel (Vec3.smul CarPhysicsEngine.friction
          phys.velocity)).x, 0,
          (CarPhysicsEngine.clampVel (Vec3.smul CarPhysicsEngine.friction phys.velocity)).z⟩
        ≤ (CarPhysicsEngine.clampVel (Vec3.smul CarPhysicsEngine.friction
            phys.velocity)).length :=
          Vec3.length_flatten_le _
      _ ≤ (Vec3.smul CarPhysicsEngine.friction phys.velocity).length :=
          CarPhysicsEngine.length_clampVel_le _
      _ = CarPhysicsEngine.friction * phys.velocity.length := by
          rw [Vec3.length_smul, abs_of_pos
            (by norm_num [CarPhysicsEngine.friction] : (0 : ℝ) < CarPhysicsEngine.friction)]
      _ < phys.velocity.length := by
          have hf : CarPhysicsEngine.friction < 1 := by norm_num [CarPhysicsEngine.friction]
          nlinarith
  · rw [CarPhysicsEngine.updatePhysics_velocity]

/-- Witness for C7 at the concrete state with velocity (3, 0, 0) and dt = 1. -/
theorem updatePhysics_friction_decay_witness :
    (0 : ℝ) < 1 ∧
    0 < (⟨⟨3, 0, 0⟩, 0⟩ : CarPhysicsState).velocity.length ∧
    ((CarPhysicsEngine.updatePhysics ⟨⟨3, 0, 0⟩, 0⟩ ⟨⟨0, 0, 0⟩, 0⟩ noKeys 1).1.velocity.length <
      (⟨⟨3, 0, 0⟩, 0⟩ : CarPhysicsState).velocity.length ∧
     (CarPhysicsEngine.updatePhysics ⟨⟨3, 0, 0⟩, 0⟩ ⟨⟨0, 0, 0⟩, 0⟩ noKeys 1).1.velocity.y = 0) :=
  ⟨by norm_num,
   by show (0 : ℝ) < Vec3.length ⟨3, 0, 0⟩; rw [Vec3.length_mk_x]; norm_num,
   updatePhysics_friction_decay ⟨⟨3, 0, 0⟩, 0⟩ ⟨⟨0, 0, 0⟩, 0⟩ 1 (by norm_num)
     (by show (0 : ℝ) < Vec3.length ⟨3, 0, 0⟩; rw [Vec3.length_mk_x]; norm_num)⟩

/-- Claim C5, counterexample: starting speed 81 exceeds maxSpeed = 80, yet one
step with no keys leaves magnitude 0.95 * 81 = 76.95, not 80: friction brings
the velocity below the clamp threshold before the limiter runs, so the clamp
never fires. -/
theorem updatePhysics_no_clamp_below_threshold :
    CarPhysicsEngine.maxSpeed < Vec3.length ⟨81, 0, 0⟩ ∧
    (CarPhysicsEngine.updatePhysics ⟨⟨81, 0, 0⟩, 0⟩ ⟨⟨0, 0, 0⟩, 0⟩
      noKeys 1).1.velocity.length ≠ CarPhysicsEngine.maxSpeed := by
  constructor
  · rw [Vec3.length_mk_x]; norm_num [CarPhysicsEngine.maxSpeed]
  · have h1 : CarPhysicsEngine.velAfterFriction ⟨81, 0, 0⟩ noKeys 0 1
        = ⟨76.95, 0, 0⟩ := by
      rw [CarPhysicsEngine.velAfterFriction_noKeys]
      unfold Vec3.smul CarPhysicsEngine.friction
      norm_num
    have h2 : CarPhysicsEngine.clampVel ⟨76.95, 0, 0⟩ = ⟨76.95, 0, 0⟩ := by
      unfold CarPhysicsEngine.clampVel
      rw [if_neg]
      rw [Vec3.length_mk_x, abs_of_pos (by norm_num : (0 : ℝ) < 76.95)]
      norm_num [CarPhysicsEngine.maxSpeed]
    rw [CarPhysicsEngine.updatePhysics_velocity]
    show Vec3.length ⟨(CarPhysicsEngine.clampVel (CarPhysicsEngine.velAfterFriction
      ⟨81, 0, 0⟩ noKeys 0 1)).x, 0, _⟩ ≠ _
    rw [h1, h2]
    show Vec3.length ⟨76.95, 0, 0⟩ ≠ _
    rw [Vec3.length_mk_x, abs_of_pos (by norm_num : (0 : ℝ) < 76.95)]
    norm_num [CarPhysicsEngine.maxSpeed]

/-- Claim C5, amended: for a starting velocity with zero vertical component,
whenever the velocity after handbrake, acceleration and friction still exceeds
maxSpeed, the stored velocity after the step has magnitude exactly maxSpeed. -/
theorem updatePhysics_clamps_to_maxSpeed (phys : CarPhysicsState) (car : CarState)
    (keys : Keys) (dt : ℝ) (hy : phys.velocity.y = 0)
    (h : CarPhysicsEngine.maxSpeed <
      (CarPhysicsEngine.velAfterFriction phys.velocity keys car.rotY dt).length) :
    (CarPhysicsEngine.updatePhysics phys car keys dt).1.velocity.length =
      CarPhysicsEngine.maxSpeed := by
  set w := CarPhysicsEngine.velAfterFriction phys.velocity keys car.rotY dt with hw
  have hwy : w.y = 0 := CarPhysicsEngine.velAfterFriction_y _ _ _ _ hy
  have hwpos : 0 < w.length :=
    lt_trans (by norm_num [CarPhysicsEngine.maxSpeed]) h
  have hclamp : CarPhysicsEngine.clampVel w
      = Vec3.smul CarPhysicsEngine.maxSpeed (Vec3.normalize3 w) := by
    unfold CarPhysicsEngine.clampVel
    exact if_pos h
  have hcy : (CarPhysicsEngine.clampVel w).y = 0 := by
    rw [hclamp]
    unfold Vec3.normalize3
    rw [if_neg (ne_of_gt hwpos)]
    simp [Vec3.smul, hwy]
  have hfinal : (CarPhysicsEngine.updatePhysics phys car keys dt).1.velocity
      = CarPhysicsEngine.clampVel w := by
    rw [CarPhysicsEngine.updatePhysics_velocity]
    exact Vec3.ext rfl hcy.symm rfl
  rw [hfinal, hclamp, Vec3.length_smul, Vec3.length_normalize3 _ (ne_of_gt hwpos), mul_one,
    abs_of_pos (by norm_num [CarPhysicsEngine.maxSpeed] : (0 : ℝ) < CarPhysicsEngine.maxSpeed)]

/-- Witness for the amended C5 at starting velocity (100, 0, 0) with no keys
and dt = 1: the post-friction speed 95 exceeds 80, and the step clamps to 80. -/
theorem updatePhysics_clamps_to_maxSpeed_witness :
    (⟨⟨100, 0, 0⟩, 0⟩ : CarPhysicsState).velocity.y = 0 ∧
    CarPhysicsEngine.maxSpeed <
      (CarPhysicsEngine.velAfterFriction (⟨⟨100, 0, 0⟩, 0⟩ : CarPhysicsState).velocity
        noKeys (⟨⟨0, 0, 0⟩, 0⟩ : CarState).rotY 1).length ∧
    (CarPhysicsEngine.updatePhysics ⟨⟨100, 0, 0⟩, 0⟩ ⟨⟨0, 0, 0⟩, 0⟩
      noKeys 1).1.velocity.length = CarPhysicsEngine.maxSpeed :=
  have hlt : CarPhysicsEngine.maxSpeed <
      (CarPhysicsEngine.velAfterFriction (⟨⟨100, 0, 0⟩, 0⟩ : CarPhysicsState).velocity
        noKeys (⟨⟨0, 0, 0⟩, 0⟩ : CarState).rotY 1).length := by
    show CarPhysicsEngine.maxSpeed <
      (CarPhysicsEngine.velAfterFriction ⟨100, 0, 0⟩ noKeys 0 1).length
    rw [CarPhysicsEngine.velAfterFriction_noKeys]
    have : Vec3.smul CarPhysicsEngine.friction (⟨100, 0, 0⟩ : Vec3) = ⟨95, 0, 0⟩ := by
      unfold Vec3.smul CarPhysicsEngine.friction
      norm_num
    rw [this, Vec3.length_mk_x]
    norm_num [CarPhysicsEngine.maxSpeed]
  ⟨rfl, hlt,
   updatePhysics_clamps_to_maxSpeed ⟨⟨100, 0, 0⟩, 0⟩ ⟨⟨0, 0, 0⟩, 0⟩ noKeys 1 rfl hlt⟩

/-- The integrator only reads the key snapshot through the acceleration
choice, the turn keys, and the handbrake key. -/
lemma updatePhysics_congr (phys : CarPhysicsState) (car : CarState) (dt : ℝ)
    {k1 k2 : Keys}
    (h1 : CarPhysicsEngine.chooseAcceleration k1 = CarPhysicsEngine.chooseAcceleration k2)
    (h2 : k1.space = k2.space) (h3 : k1.keyA = k2.keyA) (h4 : k1.arrowLeft = k2.arrowLeft)
    (h5 : k1.keyD = k2.keyD) (h6 : k1.arrowRight = k2.arrowRight) :
    CarPhysicsEngine.updatePhysics phys car k1 dt =
      CarPhysicsEngine.updatePhysics phys car k2 dt := by
  unfold CarPhysicsEngine.updatePhysics CarPhysicsEngine.velAfterFriction
    CarPhysicsEngine.updateTurnSpeed
  rw [h1, h2, h3, h4, h5, h6]

/-- Claim C10: when forward (KeyW/ArrowUp) and reverse (KeyS/ArrowDown) inputs
are both active in the same tick, reverse wins: the chosen acceleration is
-reverse, it is not the turn-only power * 0.3, and clearing the forward keys
changes nothing about the step. -/
theorem reverse_input_wins (phys : CarPhysicsState) (car : CarState) (keys : Keys) (dt : ℝ)
    (hf : (keys.keyW || keys.arrowUp) = true) (hr : (keys.keyS || keys.arrowDown) = true) :
    CarPhysicsEngine.chooseAcceleration keys = -CarPhysicsEngine.reversePower ∧
    CarPhysicsEngine.chooseAcceleration keys ≠ CarPhysicsEngine.power * 0.3 ∧
    CarPhysicsEngine.updatePhysics phys car keys dt =
      CarPhysicsEngine.updatePhysics phys car
        { keys with keyW := false, arrowUp := false } dt := by
  have hacc : ∀ k : Keys, (k.keyS || k.arrowDown) = true →
      CarPhysicsEngine.chooseAcceleration k = -CarPhysicsEngine.reversePower := by
    intro k hk
    unfold CarPhysicsEngine.chooseAcceleration
    rw [hk]
    norm_num [CarPhysicsEngine.reversePower]
  refine ⟨hacc keys hr, ?_, ?_⟩
  · rw [hacc keys hr]
    norm_num [CarPhysicsEngine.reversePower, CarPhysicsEngine.power]
  · exact updatePhysics_congr phys car dt
      ((hacc keys hr).trans (hacc { keys with keyW := false, arrowUp := false } hr).symm)
      rfl rfl rfl rfl rfl

/-- Witness for C10 with every key held down, at a concrete state. -/
theorem reverse_input_wins_witness :
    ((⟨true, true, true, true, true, true, true, true, true⟩ : Keys).keyW ||
      (⟨true, true, true, true, true, true, true, true, true⟩ : Keys).arrowUp) = true ∧
    ((⟨true, true, true, true, true, true, true, true, true⟩ : Keys).keyS ||
      (⟨true, true, true, true, true, true, true, true, true⟩ : Keys).arrowDown) = true ∧
    (CarPhysicsEngine.chooseAcceleration ⟨true, true, true, true, true, true, true, true, true⟩ =
        -CarPhysicsEngine.reversePower ∧
      CarPhysicsEngine.chooseAcceleration ⟨true, true, true, true, true, true, true, true, true⟩ ≠
        CarPhysicsEngine.power * 0.3 ∧
      CarPhysicsEngine.updatePhysics ⟨⟨0, 0, 0⟩, 0⟩ ⟨⟨0, 0, 0⟩, 0⟩
          ⟨true, true, true, true, true, true, true, true, true⟩ 1 =
        CarPhysicsEngine.updatePhysics ⟨⟨0, 0, 0⟩, 0⟩ ⟨⟨0, 0, 0⟩, 0⟩
          { (⟨true, true, true, true, true, true, true, true, true⟩ : Keys) with
              keyW := false, arrowUp := false } 1) :=
  ⟨rfl, rfl,
   reverse_input_wins ⟨⟨0, 0, 0⟩, 0⟩ ⟨⟨0, 0, 0⟩, 0⟩
     ⟨true, true, true, true, true, true, true, true, true⟩ 1 rfl rfl⟩

lemma Vec3.normalize3_of_unit (a : Vec3) (h : a.length = 1) : Vec3.normalize3 a = a := by
  unfold Vec3.normalize3
  rw [h, if_neg one_ne_zero]
  ext <;> simp [Vec3.smul]

/-- When the two centers differ in the horizontal plane, the resolver's
collision normal is the normalized XZ difference of the positions. -/
lemma resolveNormal_of_pos (posA posB : Vec3)
    (h : 0 < (posA.x - posB.x) * (posA.x - posB.x) +
      (posA.z - posB.z) * (posA.z - posB.z)) :
    resolveNormal posA posB =
      ⟨(posA.x - posB.x) / Real.sqrt ((posA.x - posB.x) * (posA.x - posB.x) +
          (posA.z - posB.z) * (posA.z - posB.z)), 0,
       (posA.z - posB.z) / Real.sqrt ((posA.x - posB.x) * (posA.x - posB.x) +
          (posA.z - posB.z) * (posA.z - posB.z))⟩ := by
  set d := Real.sqrt ((posA.x - posB.x) * (posA.x - posB.x) +
    (posA.z - posB.z) * (posA.z - posB.z)) with hd0
  have hd : 0 < d := Real.sqrt_pos.mpr h
  have hsub : Vec3.sub ⟨posA.x, 0, posA.z⟩ ⟨posB.x, 0, posB.z⟩
      = ⟨posA.x - posB.x, 0, posA.z - posB.z⟩ := by
    unfold Vec3.sub
    norm_num
  have hlen : Vec3.length ⟨posA.x - posB.x, 0, posA.z - posB.z⟩ = d := by
    unfold Vec3.length
    dsimp only
    rw [hd0]
    congr 1
    ring
  have hNsmul : (⟨(posA.x - posB.x) / d, 0, (posA.z - posB.z) / d⟩ : Vec3)
      = Vec3.smul (1 / d) ⟨posA.x - posB.x, 0, posA.z - posB.z⟩ := by
    ext <;> (dsimp only [Vec3.smul]; ring)
  have hnorm : Vec3.normalize3 ⟨posA.x - posB.x, 0, posA.z - posB.z⟩
      = ⟨(posA.x - posB.x) / d, 0, (posA.z - posB.z) / d⟩ := by
    unfold Vec3.normalize3
    rw [hlen, if_neg (ne_of_gt hd), hNsmul]
  have hlenN : Vec3.length ⟨(posA.x - posB.x) / d, 0, (posA.z - posB.z) / d⟩ = 1 := by
    rw [hNsmul, Vec3.length_smul, hlen, abs_of_pos (by positivity), one_div,
      inv_mul_cancel₀ (ne_of_gt hd)]
  simp only [resolveNormal, hsub, hnorm, hlenN, one_ne_zero, if_false]
  exact Vec3.normalize3_of_unit _ hlenN

/-- Claim C4: when the relative velocity along the collision normal is
positive (the pair is already separating), resolveCarCollision leaves both
cars' positions, yaws and velocities untouched, and a second call on the
(unchanged) outputs is again the identity. -/
theorem resolveCarCollision_separating_noop (carA carB : Car) (velA velB : Vec3)
    (h : Vec3.dot (Vec3.sub ⟨velA.x, 0, velA.z⟩ ⟨velB.x, 0, velB.z⟩)
      (resolveNormal carA.position carB.position) > 0) :
    resolveCarCollision carA carB velA velB = ⟨carA, carB, velA, velB⟩ ∧
    resolveCarCollision
        (resolveCarCollision carA carB velA velB).carA
        (resolveCarCollision carA carB velA velB).carB
        (resolveCarCollision carA carB velA velB).velA
        (resolveCarCollision carA carB velA velB).velB
      = ⟨carA, carB, velA, velB⟩ := by
  have h1 : resolveCarCollision carA carB velA velB = ⟨carA, carB, velA, velB⟩ := by
    unfold resolveCarCollision
    exact if_pos h
  exact ⟨h1, by rw [h1]; exact h1⟩

/-- Witness for C4: two cars one unit apart on the x axis with the front car
moving away; the normal is (1,0,0) and the closing speed is +2. -/
theorem resolveCarCollision_separating_noop_witness :
    Vec3.dot (Vec3.sub ⟨(2 : ℝ), 0, 0⟩ ⟨0, 0, 0⟩)
      (resolveNormal (⟨⟨1, 0, 0⟩, 0, ⟨12, 0, 24⟩⟩ : Car).position
        (⟨⟨0, 0, 0⟩, 0, ⟨12, 0, 24⟩⟩ : Car).position) > 0 ∧
    (resolveCarCollision ⟨⟨1, 0, 0⟩, 0, ⟨12, 0, 24⟩⟩ ⟨⟨0, 0, 0⟩, 0, ⟨12, 0, 24⟩⟩
        ⟨2, 0, 0⟩ ⟨0, 0, 0⟩ =
      ⟨⟨⟨1, 0, 0⟩, 0, ⟨12, 0, 24⟩⟩, ⟨⟨0, 0, 0⟩, 0, ⟨12, 0, 24⟩⟩, ⟨2, 0, 0⟩, ⟨0, 0, 0⟩⟩ ∧
     resolveCarCollision
        (resolveCarCollision ⟨⟨1, 0, 0⟩, 0, ⟨12, 0, 24⟩⟩ ⟨⟨0, 0, 0⟩, 0, ⟨12, 0, 24⟩⟩
          ⟨2, 0, 0⟩ ⟨0, 0, 0⟩).carA
        (resolveCarCollision ⟨⟨1, 0, 0⟩, 0, ⟨12, 0, 24⟩⟩ ⟨⟨0, 0, 0⟩, 0, ⟨12, 0, 24⟩⟩
          ⟨2, 0, 0⟩ ⟨0, 0, 0⟩).carB
        (resolveCarCollision ⟨⟨1, 0, 0⟩, 0, ⟨12, 0, 24⟩⟩ ⟨⟨0, 0, 0⟩, 0, ⟨12, 0, 24⟩⟩
          ⟨2, 0, 0⟩ ⟨0, 0, 0⟩).velA
        (resolveCarCollision ⟨⟨1, 0, 0⟩, 0, ⟨12, 0, 24⟩⟩ ⟨⟨0, 0, 0⟩, 0, ⟨12, 0, 24⟩⟩
          ⟨2, 0, 0⟩ ⟨0, 0, 0⟩).velB =
      ⟨⟨⟨1, 0, 0⟩, 0, ⟨12, 0, 24⟩⟩, ⟨⟨0, 0, 0⟩, 0, ⟨12, 0, 24⟩⟩, ⟨2, 0, 0⟩, ⟨0, 0, 0⟩⟩) :=
  have hdot : Vec3.dot (Vec3.sub ⟨(2 : ℝ), 0, 0⟩ ⟨0, 0, 0⟩)
      (resolveNormal (⟨⟨1, 0, 0⟩, 0, ⟨12, 0, 24⟩⟩ : Car).position
        (⟨⟨0, 0, 0⟩, 0, ⟨12, 0, 24⟩⟩ : Car).position) > 0 := by
    show Vec3.dot (Vec3.sub ⟨(2 : ℝ), 0, 0⟩ ⟨0, 0, 0⟩)
      (resolveNormal ⟨1, 0, 0⟩ ⟨0, 0, 0⟩) > 0
    rw [resolveNormal_of_pos ⟨1, 0, 0⟩ ⟨0, 0, 0⟩ (by norm_num)]
    unfold Vec3.dot Vec3.sub
    norm_num [Real.sqrt_one]
  ⟨hdot, resolveCarCollision_separating_noop ⟨⟨1, 0, 0⟩, 0, ⟨12, 0, 24⟩⟩
    ⟨⟨0, 0, 0⟩, 0, ⟨12, 0, 24⟩⟩ ⟨2, 0, 0⟩ ⟨0, 0, 0⟩ hdot⟩

lemma resolveNormal_unit_x : resolveNormal ⟨1, 0, 0⟩ ⟨0, 0, 0⟩ = ⟨1, 0, 0⟩ := by
  rw [resolveNormal_of_pos ⟨1, 0, 0⟩ ⟨0, 0, 0⟩ (by norm_num)]
  norm_num [Real.sqrt_one]

lemma handlePlayerCollisions_singleton (p : PlayerData) :
    handlePlayerCollisions [p] = [p] := by
  simp [handlePlayerCollisions, handleAux, resolveWithRest]

/-- Claim C2, counterexample: the client resolver does not reset a nonzero
vertical velocity component; a colliding pair whose first car reports
velocity (-1, 5, 0) still has vertical velocity 5 after resolution. -/
theorem resolveCarCollision_keeps_nonzero_y :
    (resolveCarCollision ⟨⟨1, 0, 0⟩, 0, ⟨12, 0, 24⟩⟩ ⟨⟨0, 0, 0⟩, 0, ⟨12, 0, 24⟩⟩
      ⟨-1, 5, 0⟩ ⟨1, 0, 0⟩).velA.y = 5 ∧ (5 : ℝ) ≠ 0 := by
  constructor
  · unfold resolveCarCollision
    dsimp only
    rw [resolveNormal_unit_x]
    rw [if_neg (by unfold Vec3.dot Vec3.sub; norm_num)]
  · norm_num

/-- Claim C2, amended: the client integrator forces both the stored vertical
velocity and the car's vertical position to zero after every step; the client
resolver, the server pair resolver, and the server's position-update handler
preserve the vertical components they are given (so they maintain y = 0 but do
not reset a nonzero incoming y; the handler stores the report verbatim). -/
theorem ground_invariant_enforcement :
    (∀ (phys : CarPhysicsState) (car : CarState) (keys : Keys) (dt : ℝ),
      (CarPhysicsEngine.updatePhysics phys car keys dt).1.velocity.y = 0 ∧
      (CarPhysicsEngine.updatePhysics phys car keys dt).2.position.y = 0) ∧
    (∀ (carA carB : Car) (velA velB : Vec3),
      (resolveCarCollision carA carB velA velB).velA.y = velA.y ∧
      (resolveCarCollision carA carB velA velB).velB.y = velB.y ∧
      (resolveCarCollision carA carB velA velB).carA.position.y = carA.position.y ∧
      (resolveCarCollision carA carB velA velB).carB.position.y = carB.position.y) ∧
    (∀ pA pB : PlayerData,
      (serverResolvePair pA pB).1.velocity.y = pA.velocity.y ∧
      (serverResolvePair pA pB).2.velocity.y = pB.velocity.y ∧
      (serverResolvePair pA pB).1.position.y = pA.position.y ∧
      (serverResolvePair pA pB).2.position.y = pB.position.y) ∧
    (∀ (p : PlayerData) (pos rot vel : Vec3) (now : ℤ),
      updatePositionHandler [p] p.id ⟨some pos, some rot, some vel⟩ now =
        [{ p with position := pos, rotation := rot, velocity := vel, lastUpdate := now }]) := by
  refine ⟨?_, ?_, ?_, ?_⟩
  · intro phys car keys dt
    exact ⟨by simp [CarPhysicsEngine.updatePhysics], by simp [CarPhysicsEngine.updatePhysics]⟩
  · intro carA carB velA velB
    unfold resolveCarCollision
    refine ⟨?_, ?_, ?_, ?_⟩ <;> (repeat' (first | split | dsimp only)) <;> simp
  · intro pA pB
    unfold serverResolvePair
    refine ⟨?_, ?_, ?_, ?_⟩ <;> (repeat' (first | split | dsimp only)) <;> simp
  · intro p pos rot vel now
    unfold updatePositionHandler
    rw [if_pos (by simp)]
    dsimp only
    have hmap : [p].map (fun q => if q.id == p.id then
        { q with position := pos, rotation := rot, velocity := vel, lastUpdate := now }
        else q) =
        [{ p with position := pos, rotation := rot, velocity := vel, lastUpdate := now }] := by
      simp
    rw [hmap, handlePlayerCollisions_singleton]

lemma bool_and4_comm (a b c d : Bool) : (a && (b && (c && d))) = (c && (d && (a && b))) := by
  cases a <;> cases b <;> cases c <;> cases d <;> rfl

lemma isOverlapping_swap (csA csB : Corners) (axis : Vec3) :
    isOverlapping csB csA axis = isOverlapping csA csB axis := by
  unfold isOverlapping
  dsimp only
  rw [Bool.or_comm]

lemma Vec3.length_sub_symm (a b : Vec3) : (Vec3.sub a b).length = (Vec3.sub b a).length := by
  unfold Vec3.length Vec3.sub
  dsimp only
  congr 1
  ring

lemma checkRotatedAABBCollision_symm (carA carB : Car) :
    checkRotatedAABBCollision carA carB = checkRotatedAABBCollision carB carA := by
  simp only [checkRotatedAABBCollision, axesToTest, List.all_cons, List.all_nil, Bool.and_true,
    isOverlapping_swap (getWorldSpaceCorners carA) (getWorldSpaceCorners carB)]
  exact bool_and4_comm _ _ _ _

/-- Claim C9: the OBB collision test is symmetric in its two arguments, for
every pair of positions, yaws and footprint sizes. -/
theorem checkOBBCollision_symm (carA carB : Car) :
    checkOBBCollision carA carB = checkOBBCollision carB carA := by
  unfold checkOBBCollision
  dsimp only
  rw [Vec3.length_sub_symm, add_comm (max carA.size.x carA.size.z * 0.5),
    checkRotatedAABBCollision_symm]

lemma max_le_sqrt_sq_add_sq (a b : ℝ) (ha : 0 ≤ a) (hb : 0 ≤ b) :
    max a b ≤ Real.sqrt (a ^ 2 + b ^ 2) := by
  apply max_le
  · rw [Real.le_sqrt ha (by positivity)]
    nlinarith
  · rw [Real.le_sqrt hb (by positivity)]
    nlinarith

/-- Claim C6, counterexample: the bounding-sphere reject is not a true
superset of the separating-axis test. Two axis-aligned 12 x 24 footprints
offset by (11.9, 0, 23.9) are about 26.70 apart, beyond the coded radius sum
24 = max(12,24)/2 + max(12,24)/2, so checkOBBCollision returns false without
running the axis test - yet the rectangles overlap (x intervals [-6,6] and
[5.9,17.9], z intervals [-12,12] and [11.9,35.9]) and the full
checkRotatedAABBCollision test reports a collision. -/
theorem checkOBBCollision_reject_not_superset :
    checkOBBCollision ⟨⟨0, 0, 0⟩, 0, ⟨12, 0, 24⟩⟩ ⟨⟨11.9, 0, 23.9⟩, 0, ⟨12, 0, 24⟩⟩ = false ∧
    checkRotatedAABBCollision ⟨⟨0, 0, 0⟩, 0, ⟨12, 0, 24⟩⟩
      ⟨⟨11.9, 0, 23.9⟩, 0, ⟨12, 0, 24⟩⟩ = true := by
  constructor
  · have hlen : (24 : ℝ) < Vec3.length (Vec3.sub ⟨0, 0, 0⟩ ⟨11.9, 0, 23.9⟩) := by
      unfold Vec3.length Vec3.sub
      dsimp only
      rw [show ((0 : ℝ) - 11.9) ^ 2 + ((0 : ℝ) - 0) ^ 2 + ((0 : ℝ) - 23.9) ^ 2 = 712.82 by
        norm_num]
      rw [Real.lt_sqrt (by norm_num : (0 : ℝ) ≤ 24)]
      norm_num
    unfold checkOBBCollision
    dsimp only
    rw [if_pos]
    rw [show max (12 : ℝ) 24 * 0.5 + max (12 : ℝ) 24 * 0.5 = 24 by norm_num [max_def]]
    exact hlen
  · have hov1 : isOverlapping (getWorldSpaceCorners ⟨⟨0, 0, 0⟩, 0, ⟨12, 0, 24⟩⟩)
        (getWorldSpaceCorners ⟨⟨11.9, 0, 23.9⟩, 0, ⟨12, 0, 24⟩⟩) ⟨1, 0, 0⟩ = true := by
      unfold isOverlapping projInterval getWorldSpaceCorners rotateY
      dsimp only
      norm_num [Vec3.dot, Vec3.add, min_def, max_def]
    have hov2 : isOverlapping (getWorldSpaceCorners ⟨⟨0, 0, 0⟩, 0, ⟨12, 0, 24⟩⟩)
        (getWorldSpaceCorners ⟨⟨11.9, 0, 23.9⟩, 0, ⟨12, 0, 24⟩⟩) ⟨0, 0, 1⟩ = true := by
      unfold isOverlapping projInterval getWorldSpaceCorners rotateY
      dsimp only
      norm_num [Vec3.dot, Vec3.add, min_def, max_def]
    simp only [checkRotatedAABBCollision, axesToTest, List.all_cons, List.all_nil,
      Real.cos_zero, Real.sin_zero, neg_zero]
    rw [hov1, hov2]
    rfl

/-- Claim C6, amended: centers farther apart than the sum of the two
footprints' half-diagonals never collide, because the coded fast reject
(which uses the larger half-extent, at most the half-diagonal) already fires;
the reject is however not a true superset of the separating-axis test, since
its radius can fall short of the half-diagonal. -/
theorem checkOBBCollision_halfdiag_reject (carA carB : Car)
    (hAx : 0 ≤ carA.size.x) (hAz : 0 ≤ carA.size.z)
    (hBx : 0 ≤ carB.size.x) (hBz : 0 ≤ carB.size.z)
    (h : Real.sqrt (carA.size.x ^ 2 + carA.size.z ^ 2) * 0.5 +
         Real.sqrt (carB.size.x ^ 2 + carB.size.z ^ 2) * 0.5 <
         (Vec3.sub carA.position carB.position).length) :
    checkOBBCollision carA carB = false := by
  have hA := max_le_sqrt_sq_add_sq carA.size.x carA.size.z hAx hAz
  have hB := max_le_sqrt_sq_add_sq carB.size.x carB.size.z hBx hBz
  unfold checkOBBCollision
  dsimp only
  rw [if_pos]
  linarith

/-- Witness for C6: two 12 x 24 footprints 40 apart on the x axis; the sum of
half-diagonals is sqrt 720 < 27, well below 40. -/
theorem checkOBBCollision_halfdiag_reject_witness :
    ((0 : ℝ) ≤ (⟨⟨0, 0, 0⟩, 0, ⟨12, 0, 24⟩⟩ : Car).size.x ∧
     (0 : ℝ) ≤ (⟨⟨0, 0, 0⟩, 0, ⟨12, 0, 24⟩⟩ : Car).size.z ∧
     Real.sqrt ((⟨⟨0, 0, 0⟩, 0, ⟨12, 0, 24⟩⟩ : Car).size.x ^ 2 +
         (⟨⟨0, 0, 0⟩, 0, ⟨12, 0, 24⟩⟩ : Car).size.z ^ 2) * 0.5 +
       Real.sqrt ((⟨⟨40, 0, 0⟩, 0, ⟨12, 0, 24⟩⟩ : Car).size.x ^ 2 +
         (⟨⟨40, 0, 0⟩, 0, ⟨12, 0, 24⟩⟩ : Car).size.z ^ 2) * 0.5 <
       (Vec3.sub (⟨⟨0, 0, 0⟩, 0, ⟨12, 0, 24⟩⟩ : Car).position
         (⟨⟨40, 0, 0⟩, 0, ⟨12, 0, 24⟩⟩ : Car).position).length) ∧
    checkOBBCollision ⟨⟨0, 0, 0⟩, 0, ⟨12, 0, 24⟩⟩ ⟨⟨40, 0, 0⟩, 0, ⟨12, 0, 24⟩⟩ = false :=
  have hfar : Real.sqrt ((⟨⟨0, 0, 0⟩, 0, ⟨12, 0, 24⟩⟩ : Car).size.x ^ 2 +
      (⟨⟨0, 0, 0⟩, 0, ⟨12, 0, 24⟩⟩ : Car).size.z ^ 2) * 0.5 +
      Real.sqrt ((⟨⟨40, 0, 0⟩, 0, ⟨12, 0, 24⟩⟩ : Car).size.x ^ 2 +
        (⟨⟨40, 0, 0⟩, 0, ⟨12, 0, 24⟩⟩ : Car).size.z ^ 2) * 0.5 <
      (Vec3.sub (⟨⟨0, 0, 0⟩, 0, ⟨12, 0, 24⟩⟩ : Car).position
        (⟨⟨40, 0, 0⟩, 0, ⟨12, 0, 24⟩⟩ : Car).position).length := by
    show Real.sqrt ((12 : ℝ) ^ 2 + (24 : ℝ) ^ 2) * 0.5 +
      Real.sqrt ((12 : ℝ) ^ 2 + (24 : ℝ) ^ 2) * 0.5 <
      (Vec3.sub ⟨0, 0, 0⟩ ⟨40, 0, 0⟩).length
    have h720 : Real.sqrt ((12 : ℝ) ^ 2 + (24 : ℝ) ^ 2) < 27 := by
      rw [show (12 : ℝ) ^ 2 + (24 : ℝ) ^ 2 = 720 by norm_num]
      rw [Real.sqrt_lt' (by norm_num : (0 : ℝ) < 27)]
      norm_num
    have hlen : (Vec3.sub (⟨0, 0, 0⟩ : Vec3) ⟨40, 0, 0⟩).length = 40 := by
      show Vec3.length ⟨0 - 40, 0 - 0, 0 - 0⟩
        = 40
      norm_num
      rw [Vec3.length_mk_x]
      norm_num
    rw [hlen]
    calc Real.sqrt ((12 : ℝ) ^ 2 + (24 : ℝ) ^ 2) * 0.5 +
          Real.sqrt ((12 : ℝ) ^ 2 + (24 : ℝ) ^ 2) * 0.5
        = Real.sqrt ((12 : ℝ) ^ 2 + (24 : ℝ) ^ 2) := by ring
      _ < 27 := h720
      _ < 40 := by norm_num
  ⟨⟨by norm_num, by norm_num, hfar⟩,
   checkOBBCollision_halfdiag_reject ⟨⟨0, 0, 0⟩, 0, ⟨12, 0, 24⟩⟩ ⟨⟨40, 0, 0⟩, 0, ⟨12, 0, 24⟩⟩
     (by norm_num) (by norm_num) (by norm_num) (by norm_num) hfar⟩

/-- Claim C8, counterexample: a join whose name is the empty string is not
given a placeholder; the empty string is falsy, so validatePlayerName throws
and the join handler answers with a structured error instead. -/
theorem validatePlayerName_empty_rejected :
    validatePlayerName "" 0 = Except.error "Invalid player name" := by
  rfl

/-- Claim C8, amended: a join whose name is the empty string is rejected with
a validation error; a nonempty name that trims and truncates to the empty
string is given the generated placeholder, which carries the fixed Player_
head and is never the empty string. -/
theorem validatePlayerName_placeholder_on_blank (name : String) (now : ℤ)
    (h1 : name ≠ "") (h2 : String.mk ((trimChars name.data).take 20) = "") :
    validatePlayerName name now = Except.ok ("Player_" ++ toString now) ∧
    ("Player_" ++ toString now) ≠ "" := by
  constructor
  · unfold validatePlayerName
    rw [if_neg h1]
    dsimp only
    rw [if_pos h2]
  · intro hcontra
    have h0 : ("Player_" ++ toString now).length = 0 := by rw [hcontra]; rfl
    rw [String.length_append] at h0
    have h7 : ("Player_" : String).length = 7 := rfl
    rw [h7] at h0
    omega

/-- Witness for the amended C8 with the single-space name at timestamp 7. -/
theorem validatePlayerName_placeholder_witness :
    (" " ≠ "" ∧ String.mk ((trimChars " ".data).take 20) = "") ∧
    (validatePlayerName " " 7 = Except.ok ("Player_" ++ toString (7 : ℤ)) ∧
     ("Player_" ++ toString (7 : ℤ)) ≠ "") :=
  ⟨⟨by decide, by decide⟩,
   validatePlayerName_placeholder_on_blank " " 7 (by decide) (by decide)⟩

/-- Claim C3, counterexample: when the last member of room r disconnects, the
disconnect handler removes the room from the room map at once; it does not
remain in the map awaiting a grace period. -/
theorem disconnect_last_member_deletes_room_now :
    (disconnectHandler
      ⟨[("a", ⟨"a", "Alice", "r", ⟨0, 0, 0⟩, ⟨0, 0, 0⟩, ⟨0, 0, 0⟩, 0, 0⟩)],
       [⟨"r", ["a"], 0⟩]⟩ "a").rooms = [] := by
  rfl

/-- Claim C3, amended: the disconnect handler deletes a room immediately when
its last member leaves; separately, the periodic sweep deletes exactly the
rooms that are empty and older than the 30-minute age, so its output never
contains an empty room past that age. -/
theorem room_lifecycle_on_empty :
    (∀ (sid : String) (p : PlayerData) (createdAt : ℤ),
      (disconnectHandler ⟨[(sid, p)], [⟨p.roomId, [sid], createdAt⟩]⟩ sid).rooms = []) ∧
    (∀ (rooms : List RoomData) (now : ℤ),
      (cleanupRooms rooms now).filter
        (fun r => r.members.isEmpty && decide (now - r.createdAt > maxAge)) = []) := by
  constructor
  · intro sid p createdAt
    simp [disconnectHandler, List.find?, List.filter]
  · intro rooms now
    unfold cleanupRooms
    induction rooms with
    | nil => rfl
    | cons r rs ih =>
      by_cases hc : (r.members.isEmpty && decide (now - r.createdAt > maxAge)) = true
      · simp only [List.filter_cons, hc, Bool.not_true]
        exact ih
      · rw [Bool.not_eq_true] at hc
        simp only [List.filter_cons, hc, Bool.not_false, if_true, if_false]
        exact ih

lemma collisionRadius_sq_value :
    Real.sqrt (24 * 24 + 12 * 12 : ℝ) * 0.5 * (Real.sqrt (24 * 24 + 12 * 12 : ℝ) * 0.5)
      = 180 := by
  rw [show ((24 : ℝ) * 24 + 12 * 12) = 720 by norm_num]
  have h := Real.mul_self_sqrt (show (0 : ℝ) ≤ 720 by norm_num)
  linear_combination (1 / 4) * h

/-- Claim C1, counterexample: at center distance 13 the spec-claimed
Detector+Resolver pair is the identity (checkOBBCollision rejects: the 12-wide
footprints are 1 apart on the x axis), yet the server's pass resolves the pair
(13 is inside its fixed radius of about 13.42) and changes both velocities
from +-1 to -+1.6: the two passes are not equivalent. -/
theorem handlePlayerCollisions_not_detectorResolverPair :
    detectorResolverPair cexA cexB = (cexA, cexB) ∧
    (handlePlayerCollisions [cexA, cexB]).map (fun p => p.velocity.x) = [-1.6, 1.6] ∧
    cexA.velocity.x = 1 ∧ cexB.velocity.x = -1 := by
  have hOBB : checkOBBCollision ⟨⟨0, 0, 0⟩, 0, ⟨12, 0, 24⟩⟩
      ⟨⟨13, 0, 0⟩, 0, ⟨12, 0, 24⟩⟩ = false := by
    have hov : isOverlapping (getWorldSpaceCorners ⟨⟨0, 0, 0⟩, 0, ⟨12, 0, 24⟩⟩)
        (getWorldSpaceCorners ⟨⟨13, 0, 0⟩, 0, ⟨12, 0, 24⟩⟩) ⟨1, 0, 0⟩ = false := by
      unfold isOverlapping projInterval getWorldSpaceCorners rotateY
      dsimp only
      norm_num [Vec3.dot, Vec3.add, min_def, max_def]
    have hsat : checkRotatedAABBCollision ⟨⟨0, 0, 0⟩, 0, ⟨12, 0, 24⟩⟩
        ⟨⟨13, 0, 0⟩, 0, ⟨12, 0, 24⟩⟩ = false := by
      simp only [checkRotatedAABBCollision, axesToTest, List.all_cons, List.all_nil,
        Real.cos_zero, Real.sin_zero, neg_zero]
      rw [hov]
      simp
    unfold checkOBBCollision
    dsimp only
    rw [if_neg, hsat]
    rw [show Vec3.sub ⟨0, 0, 0⟩ ⟨13, 0, 0⟩ = (⟨-13, 0, 0⟩ : Vec3) by
        unfold Vec3.sub; norm_num,
      Vec3.length_mk_x]
    rw [abs_of_nonpos (by norm_num : (-13 : ℝ) ≤ 0)]
    norm_num [max_def]
  have hsrv : ((serverResolvePair cexA cexB).1.velocity.x = -1.6 ∧
      (serverResolvePair cexA cexB).2.velocity.x = 1.6) := by
    unfold serverResolvePair cexA cexB
    dsimp only
    norm_num
    rw [show Real.sqrt 169 = 13 by
      rw [show (169 : ℝ) = 13 ^ 2 by norm_num]; exact Real.sqrt_sq (by norm_num)]
    rw [show Real.sqrt 720 * (1 / 2) * (Real.sqrt 720 * (1 / 2)) = 180 by
      have h := Real.mul_self_sqrt (show (0 : ℝ) ≤ 720 by norm_num)
      linear_combination (1 / 4) * h]
    rw [if_pos (by norm_num : (169 : ℝ) < 180)]
    constructor <;> (split <;> norm_num)
  refine ⟨?_, ?_, rfl, rfl⟩
  · unfold detectorResolverPair cexA cexB
    dsimp only
    rw [hOBB]
    simp
  · rw [show handlePlayerCollisions [cexA, cexB] =
        [(serverResolvePair cexA cexB).1, (serverResolvePair cexA cexB).2] from by
      simp [handlePlayerCollisions, handleAux, resolveWithRest]]
    simp only [List.map_cons, List.map_nil, hsrv.1, hsrv.2]

/-- Claim C1, amended: the server re-resolves every pair with its own
fixed-radius circle gate and the same impulse formula, then rebroadcasts the
room; whenever its radius gate fires on a pair with distinct centers, its
velocity updates coincide with resolveCarCollision's, but its detection gate
is not checkOBBCollision, so the pass is not equivalent to the client
Detector+Resolver pair. -/
theorem serverResolvePair_velocity_eq_resolveCarCollision
    (pA pB : PlayerData) (sA sB : Vec3)
    (hpos : 0 < (pA.position.x - pB.position.x) * (pA.position.x - pB.position.x) +
      (pA.position.z - pB.position.z) * (pA.position.z - pB.position.z))
    (hgate : (pA.position.x - pB.position.x) * (pA.position.x - pB.position.x) +
      (pA.position.z - pB.position.z) * (pA.position.z - pB.position.z) <
      Real.sqrt (24 * 24 + 12 * 12) * 0.5 * (Real.sqrt (24 * 24 + 12 * 12) * 0.5)) :
    (serverResolvePair pA pB).1.velocity =
      (resolveCarCollision ⟨pA.position, pA.rotation.y, sA⟩ ⟨pB.position, pB.rotation.y, sB⟩
        pA.velocity pB.velocity).velA ∧
    (serverResolvePair pA pB).2.velocity =
      (resolveCarCollision ⟨pA.position, pA.rotation.y, sA⟩ ⟨pB.position, pB.rotation.y, sB⟩
        pA.velocity pB.velocity).velB := by
  have hd : Real.sqrt ((pA.position.x - pB.position.x) * (pA.position.x - pB.position.x) +
      (pA.position.z - pB.position.z) * (pA.position.z - pB.position.z)) ≠ 0 :=
    ne_of_gt (Real.sqrt_pos.mpr hpos)
  unfold serverResolvePair resolveCarCollision
  dsimp only
  rw [resolveNormal_of_pos pA.position pB.position hpos]
  rw [if_pos hgate, if_neg hd]
  have hvan : Vec3.dot
      (Vec3.sub ⟨pA.velocity.x, 0, pA.velocity.z⟩ ⟨pB.velocity.x, 0, pB.velocity.z⟩)
      (⟨(pA.position.x - pB.position.x) / Real.sqrt ((pA.position.x - pB.position.x) *
          (pA.position.x - pB.position.x) +
          (pA.position.z - pB.position.z) * (pA.position.z - pB.position.z)), 0,
        (pA.position.z - pB.position.z) / Real.sqrt ((pA.position.x - pB.position.x) *
          (pA.position.x - pB.position.x) +
          (pA.position.z - pB.position.z) * (pA.position.z - pB.position.z))⟩ : Vec3) =
      (pA.velocity.x - pB.velocity.x) * ((pA.position.x - pB.position.x) /
        Real.sqrt ((pA.position.x - pB.position.x) * (pA.position.x - pB.position.x) +
          (pA.position.z - pB.position.z) * (pA.position.z - pB.position.z))) +
      (pA.velocity.z - pB.velocity.z) * ((pA.position.z - pB.position.z) /
        Real.sqrt ((pA.position.x - pB.position.x) * (pA.position.x - pB.position.x) +
          (pA.position.z - pB.position.z) * (pA.position.z - pB.position.z))) := by
    unfold Vec3.dot Vec3.sub
    dsimp only
    ring
  rw [hvan]
  split
  · exact ⟨rfl, rfl⟩
  · split <;>
      exact ⟨by apply Vec3.ext <;> (try dsimp only [Vec3.smul]) <;> (try ring),
             by apply Vec3.ext <;> (try dsimp only [Vec3.smul]) <;> (try ring)⟩

/-- Witness for the amended C1 at the concrete pair 13 apart: the server gate
fires (169 < 180) and the velocity updates agree with resolveCarCollision. -/
theorem serverResolvePair_velocity_eq_witness :
    (0 < (cexA.position.x - cexB.position.x) * (cexA.position.x - cexB.position.x) +
      (cexA.position.z - cexB.position.z) * (cexA.position.z - cexB.position.z) ∧
     (cexA.position.x - cexB.position.x) * (cexA.position.x - cexB.position.x) +
      (cexA.position.z - cexB.position.z) * (cexA.position.z - cexB.position.z) <
      Real.sqrt (24 * 24 + 12 * 12) * 0.5 * (Real.sqrt (24 * 24 + 12 * 12) * 0.5)) ∧
    ((serverResolvePair cexA cexB).1.velocity =
      (resolveCarCollision ⟨cexA.position, cexA.rotation.y, ⟨12, 0, 24⟩⟩
        ⟨cexB.position, cexB.rotation.y, ⟨12, 0, 24⟩⟩
        cexA.velocity cexB.velocity).velA ∧
     (serverResolvePair cexA cexB).2.velocity =
      (resolveCarCollision ⟨cexA.position, cexA.rotation.y, ⟨12, 0, 24⟩⟩
        ⟨cexB.position, cexB.rotation.y, ⟨12, 0, 24⟩⟩
        cexA.velocity cexB.velocity).velB) :=
  have hpos : 0 < (cexA.position.x - cexB.position.x) * (cexA.position.x - cexB.position.x) +
      (cexA.position.z - cexB.position.z) * (cexA.position.z - cexB.position.z) := by
    norm_num [cexA, cexB]
  have hgate : (cexA.position.x - cexB.position.x) * (cexA.position.x - cexB.position.x) +
      (cexA.position.z - cexB.position.z) * (cexA.position.z - cexB.position.z) <
      Real.sqrt (24 * 24 + 12 * 12) * 0.5 * (Real.sqrt (24 * 24 + 12 * 12) * 0.5) := by
    rw [collisionRadius_sq_value]
    norm_num [cexA, cexB]
  ⟨⟨hpos, hgate⟩,
   serverResolvePair_velocity_eq_resolveCarCollision cexA cexB ⟨12, 0, 24⟩ ⟨12, 0, 24⟩
     hpos hgate⟩
